import Mathlib

/-!
Shallow embedding of `custom_components/ha_strava/__init__.py`
(Strava Home Assistant custom component).

The embedding covers the three pieces of core logic the claims are about:

* `StravaWebhookView.post`  — the webhook POST handler (lines 177-196);
* `StravaWebhookView.fetch_strava_data` — the activity fetch/normalise
  pipeline (lines 95-165);
* `renew_webhook_subscription` — the subscription reconciler
  (lines 199-303).

Python exceptions are modelled with `Except PyError`; network responses,
externally parsed JSON values and the results of the external
`float`/`int`/`strptime` conversions are supplied as explicit inputs.
Numbers are modelled exactly (`Int` / `ℚ`); `int(...)` truncation toward
zero is `pyTrunc`.  The one place where the program's IEEE-float
arithmetic is visible in a published value — the calorie sentinel for an
absent `kilojoules` field, where the float product `(-1/FACTOR)*FACTOR`
truncates to 0 rather than -1 — is modelled by its truncated result
(`calories_absent_default`).
-/

namespace HaStrava

/-- Python error classes that the handlers can raise.  Only
`JSONDecodeError` is ever caught by the source code. -/
inductive PyError where
  | jsonDecodeError
  | valueError
  | typeError
deriving DecidableEq, Repr

/-- The constant `HTTP_OK` from `homeassistant.const` (external collaborator, not in
src): the 200 success status. -/
def HTTP_OK : Nat := 200

/-- Modelled from the spec: `MAX_NB_ACTIVITIES` is the fixed maximum page
size from `const.py`, which is not under src.  The theorems below hold
for any value; we fix a representative one. -/
def MAX_NB_ACTIVITIES : Nat := 10

/-- Modelled from the spec: `FACTOR_KILOJOULES_TO_KILOCALORIES`, the fixed
energy conversion factor from `const.py`, which is not under src; we fix
the physical kJ→kcal value.  It appears only in the present-`kilojoules`
conversion path; the absent-field default the program publishes is the
float-truncated `calories_absent_default`. -/
def FACTOR_KILOJOULES_TO_KILOCALORIES : ℚ := 239006 / 1000000

/-- The timestamp `strptime` produces for the default string
`2000-01-01T00:00:00Z` (timestamps are abstracted to integers ordered as
the corresponding datetimes). -/
def sentinel_date : Int := 946684800

/-- Python `int(...)` applied to an exact rational: truncation toward
zero. -/
def pyTrunc (q : ℚ) : Int :=
  if 0 ≤ q then q.floor else q.ceil

/-- Python `sub in s` for strings: substring containment. -/
def pyIn (sub s : String) : Bool :=
  decide (sub.data <:+: s.data)

/-! ### The webhook view's mutable data (`StravaWebhookView.__init__`) -/

/-- The data attributes of `StravaWebhookView` (lines 81-93): the
currently known subscription id (`self.webhook_id`) and the public host
(`self.host`).  The session, event factory and hass handles carry no data
the claims depend on. -/
structure ViewState where
  webhook_id : Option Int
  host : String
deriving DecidableEq, Repr

/-- Model of `StravaWebhookView.__init__` (lines 81-93): `self.webhook_id = None`,
`self.host = host`. -/
def StravaWebhookView.init (host : String) : ViewState :=
  ⟨none, host⟩

/-! ### The POST handler (`StravaWebhookView.post`, lines 177-196) -/

/-- The value found under `subscription_id` in a parsed JSON body:
either a value Python's `int(...)` converts to `n`, or one on which
`int(...)` raises `ValueError`. -/
inductive FieldVal where
  | intLike (n : Int)
  | notIntLike
deriving DecidableEq, Repr

/-- The request body as seen by `await request.json()`: either the parse
raises `JSONDecodeError`, or it yields an object whose
`subscription_id` entry is absent or holds a `FieldVal`. -/
inductive BodyVal where
  | unparsable
  | obj (subscription_id : Option FieldVal)
deriving DecidableEq, Repr

/-- An incoming POST request: the `Host` header (absent allowed) and the
body. -/
structure PostRequest where
  host : Option String
  body : BodyVal
deriving DecidableEq, Repr

/-- Lines 181-185: `try: data = await request.json(); webhook_id =
int(data.get("subscription_id", -1)) except JSONDecodeError: webhook_id
= -1`.  Only `JSONDecodeError` is caught; `int(...)` on a present
non-convertible value raises `ValueError`, which escapes. -/
def extract_webhook_id : BodyVal → Except PyError Int
  | BodyVal.unparsable => Except.ok (-1)
  | BodyVal.obj none => Except.ok (-1)
  | BodyVal.obj (some (FieldVal.intLike n)) => Except.ok n
  | BodyVal.obj (some FieldVal.notIntLike) => Except.error PyError.valueError

/-- The left operand of line 191's `or`: `webhook_id == self.webhook_id`.
`self.webhook_id` is `None` unless assigned (it never is), and in Python
`int == None` is `False`. -/
def idMatch (view : ViewState) (webhook_id : Int) : Bool :=
  match view.webhook_id with
  | some w => webhook_id == w
  | none => false

/-- The right operand of line 191's `or`: `request_host in self.host`.
Python substring containment; `None in self.host` raises `TypeError`. -/
def hostMatch (view : ViewState) : Option String → Except PyError Bool
  | none => Except.error PyError.typeError
  | some h => Except.ok (pyIn h view.host)

/-- Model of `StravaWebhookView.post` (lines 177-196).  Returns (number of
`fetch_strava_data` tasks created, HTTP status).  The `or` on line 191
short-circuits, so the host operand is only evaluated when the id does
not match. -/
def post (view : ViewState) (req : PostRequest) : Except PyError (Nat × Nat) := do
  let webhook_id ← extract_webhook_id req.body
  if idMatch view webhook_id then
    Except.ok (1, HTTP_OK)
  else do
    let hm ← hostMatch view req.host
    if hm then
      Except.ok (1, HTTP_OK)
    else
      Except.ok (0, HTTP_OK)

/-! ### The reconciler (`renew_webhook_subscription`, lines 199-303) -/

/-- One entry of the remote subscription list: `id` and
`callback_url`. -/
structure Subscription where
  id : Int
  callback_url : String
deriving DecidableEq, Repr

/-- The config-entry record (`entry.data` / the `config_data` dict):
client id, client secret, callback URL, webhook subscription id. -/
structure EntryData where
  client_id : String
  client_secret : String
  callback_url : Option String
  webhook_id : Option Int
deriving DecidableEq, Repr

/-- The external responses one reconcile run can observe: the public URL
(`get_url`, `none` = `NoURLAvailableError`), the status of the callback
self-probe, the parsed subscription list, and the statuses/payload of the
delete and create calls should they be issued. -/
structure ReconcileEnv where
  public_url : Option String
  callback_probe_status : Nat
  subscriptions : List Subscription
  delete_status : Nat
  create_status : Nat
  created_id : Int
deriving DecidableEq, Repr

/-- Observable outcome of one reconcile run: how many DELETE and POST
(create) subscription calls were issued, what
`hass.config_entries.async_update_entry` persisted (`none` = not
called), and whether the function returned `True` (`success`) rather
than falling out through an error `return`. -/
structure ReconcileResult where
  deletes : Nat
  creates : Nat
  persisted : Option EntryData
  success : Bool
deriving DecidableEq, Repr

/-- Model of `renew_webhook_subscription` (lines 199-303).  The function receives
`webhook_view` but never reads or writes it, so the view is passed
through unchanged.  Note the source's `if len == 1 / elif len == 0 /
else` chain: after a successful delete inside the `len == 1` branch the
code reassigns `existing_webhook_subscriptions = []` but the `elif`
branch is never re-evaluated, so no create is issued on that path and
the id of the just-deleted subscription stays in `config_data`. -/
def renew_webhook_subscription (entry : EntryData) (view : ViewState)
    (env : ReconcileEnv) : ReconcileResult × ViewState :=
  let result : ReconcileResult :=
    match env.public_url with
    | none => ⟨0, 0, none, false⟩
    | some ha_host =>
      let cb := ha_host ++ "/api/strava/webhook"
      let cfg : EntryData := ⟨entry.client_id, entry.client_secret, some cb, entry.webhook_id⟩
      if env.callback_probe_status ≠ 200 then ⟨0, 0, none, false⟩
      else
        match env.subscriptions with
        | [s] =>
          let cfg1 : EntryData := ⟨cfg.client_id, cfg.client_secret, cfg.callback_url, some s.id⟩
          if cb ≠ s.callback_url then
            if env.delete_status = 204 then
              ⟨1, 0, some cfg1, true⟩
            else
              ⟨1, 0, none, false⟩
          else
            ⟨0, 0, some cfg1, true⟩
        | [] =>
          if env.create_status = 201 then
            ⟨0, 1, some ⟨cfg.client_id, cfg.client_secret, cfg.callback_url, some env.created_id⟩, true⟩
          else
            ⟨0, 1, none, false⟩
        | _ => ⟨0, 0, none, false⟩
  (result, view)

/-! ### The fetch pipeline (`StravaWebhookView.fetch_strava_data`,
lines 95-165) -/

/-- A JSON field value fed to Python's `float(...)`/`int(...)`: either
the conversion succeeds with exact value `q`, or it raises
`ValueError`. -/
inductive NumVal where
  | ok (q : ℚ)
  | bad
deriving DecidableEq, Repr

/-- A present `start_date_local` string fed to `dt.strptime`: either it
parses to timestamp `t`, or `strptime` raises `ValueError`. -/
inductive DateVal where
  | ok (t : Int)
  | bad
deriving DecidableEq, Repr

/-- The reverse-geocode response body for one activity, as seen by
`json.loads`: unparsable (the parse raises `JSONDecodeError`; the status
of the geocode response is never checked), or an object with optional
`city` and `name` string fields. -/
inductive GeoResp where
  | unparsable
  | parsed (city : Option String) (name : Option String)
deriving DecidableEq, Repr

/-- One element of the parsed activities array, with the fields lines
112-153 read from it (absent = the `.get` default is used), together
with the geocode response its coordinates produce. -/
structure RawActivity where
  name : Option String
  type : Option String
  distance : Option NumVal
  start_date_local : Option DateVal
  elapsed_time : Option NumVal
  moving_time : Option NumVal
  kudos_count : Option NumVal
  kilojoules : Option NumVal
  total_elevation_gain : Option NumVal
  average_watts : Option NumVal
  achievement_count : Option NumVal
  geo : GeoResp
deriving DecidableEq, Repr

/-- One normalised activity, with the fields of the dict built on lines
126-151 (the `CONF_SENSOR_*` keys). -/
structure Activity where
  title : String
  city : String
  activity_type : String
  distance : ℚ
  date : Int
  duration : ℚ
  moving_time : ℚ
  kudos : Int
  calories : Int
  elevation : Int
  power : ℚ
  trophies : Int
deriving DecidableEq, Repr

/-- Model of `float(activity.get(key, -1))`: `-1` when the field is absent, the
value when it converts, `ValueError` otherwise. -/
def pyFloatField : Option NumVal → Except PyError ℚ
  | none => Except.ok (-1)
  | some (NumVal.ok q) => Except.ok q
  | some NumVal.bad => Except.error PyError.valueError

/-- Model of `int(activity.get(key, -1))`: `-1` when the field is absent,
truncation of the value when it converts, `ValueError` otherwise. -/
def pyIntField : Option NumVal → Except PyError Int
  | none => Except.ok (-1)
  | some (NumVal.ok q) => Except.ok (pyTrunc q)
  | some NumVal.bad => Except.error PyError.valueError

/-- Model of `dt.strptime(activity.get("start_date_local",
"2000-01-01T00:00:00Z"), ...)` (lines 131-134): absent falls back to the
default string, which parses to `sentinel_date`; a present unparsable
string raises `ValueError`. -/
def strptimeField : Option DateVal → Except PyError Int
  | none => Except.ok sentinel_date
  | some (DateVal.ok t) => Except.ok t
  | some DateVal.bad => Except.error PyError.valueError

/-- The calorie value the program publishes for an absent `kilojoules`
field: lines 138-143 compute `int((-1 / FACTOR) * FACTOR)` in IEEE
doubles, where the two roundings make the product -0.9999999999999999 —
strictly between -1 and 0 — and `int()` truncates toward zero, so the
published value is 0, not the -1 sentinel the other numeric fields use. -/
def calories_absent_default : Int := 0

/-- Model of `int(activity.get("kilojoules", -1 / FACTOR) * FACTOR)` (lines
138-143): the absent case is the float-truncated
`calories_absent_default`; a present convertible value is modelled in
exact arithmetic. -/
def caloriesField : Option NumVal → Except PyError Int
  | none => Except.ok calories_absent_default
  | some (NumVal.ok q) =>
    Except.ok (pyTrunc (q * FACTOR_KILOJOULES_TO_KILOCALORIES))
  | some NumVal.bad => Except.error PyError.valueError

/-- The geocode step for one activity (lines 113-122): parse the
response (`json.loads` may raise); take `city` when truthy (Python: not
`None`, not the empty string), else `name` when present, else
`"Paradise City"`. -/
def cityOf : GeoResp → Except PyError String
  | GeoResp.unparsable => Except.error PyError.jsonDecodeError
  | GeoResp.parsed city nm =>
    Except.ok (match city with
      | some c => if c ≠ "" then c else nm.getD "Paradise City"
      | none => nm.getD "Paradise City")

/-- The dict literal of lines 126-151 (city already computed into
`cities[idx]`), fields evaluated in source order. -/
def mkActivity (a : RawActivity) (city : String) : Except PyError Activity := do
  let title := a.name.getD "Strava Activity"
  let atype := a.type.getD "Ride"
  let dist ← pyFloatField a.distance
  let date ← strptimeField a.start_date_local
  let dur ← pyFloatField a.elapsed_time
  let mov ← pyFloatField a.moving_time
  let kud ← pyIntField a.kudos_count
  let cal ← caloriesField a.kilojoules
  let elev ← pyIntField a.total_elevation_gain
  let pow ← pyFloatField a.average_watts
  let tro ← pyIntField a.achievement_count
  Except.ok ⟨title, city, atype, dist, date, dur, mov, kud, cal, elev, pow, tro⟩

/-- A left-to-right loop over a list in which each step can raise:
models both the `for activity in activities` geocode loop and the list
comprehension of lines 124-156. -/
def exceptMapM (f : α → Except PyError β) : List α → Except PyError (List β)
  | [] => Except.ok []
  | x :: xs => do
    let y ← f x
    let ys ← exceptMapM f xs
    Except.ok (y :: ys)

/-- The sort key order of lines 154-155: `sorted(...,
key=lambda a: a[CONF_SENSOR_DATE], reverse=True)` orders by start
timestamp descending. -/
def dateDesc (a b : Activity) : Prop :=
  b.date ≤ a.date

instance : DecidableRel dateDesc := fun a b =>
  inferInstanceAs (Decidable (b.date ≤ a.date))

instance : IsTotal Activity dateDesc :=
  ⟨fun a b => le_total b.date a.date⟩

instance : IsTrans Activity dateDesc :=
  ⟨fun _ _ _ hab hbc => le_trans hbc hab⟩

/-- Model of `StravaWebhookView.fetch_strava_data` (lines 95-165), as a function
of the activities response (status, and the parsed body when
`json.loads` succeeds — `none` models an unparsable body).  The returned
list holds one element per `event_factory` invocation, carrying the
published activities list: on a non-200 status the function logs and
returns with no publish; on 200 it geocodes every activity, builds the
dicts, sorts descending by date, and publishes exactly once. -/
def fetch_strava_data (status : Nat) (body : Option (List RawActivity)) :
    Except PyError (List (List Activity)) :=
  if status = 200 then do
    let activities ← match body with
      | none => Except.error PyError.jsonDecodeError
      | some l => Except.ok l
    let cities ← exceptMapM (fun a => cityOf a.geo) activities
    let processed ← exceptMapM (fun p => mkActivity p.1 p.2) (activities.zip cities)
    Except.ok [List.insertionSort dateDesc processed]
  else
    Except.ok []

/-- The numeric field holds no value on which the conversion would
raise. -/
def numOk : Option NumVal → Bool
  | some NumVal.bad => false
  | _ => true

/-- The date field holds no value on which `strptime` would raise. -/
def dateOk : Option DateVal → Bool
  | some DateVal.bad => false
  | _ => true

/-- The geocode response parses. -/
def geoOk : GeoResp → Bool
  | GeoResp.unparsable => false
  | _ => true

/-- Every field of the raw activity is absent or convertible, and its
geocode response parses: processing it raises nothing. -/
def wellFormed (a : RawActivity) : Bool :=
  numOk a.distance && dateOk a.start_date_local && numOk a.elapsed_time &&
  numOk a.moving_time && numOk a.kudos_count && numOk a.kilojoules &&
  numOk a.total_elevation_gain && numOk a.average_watts &&
  numOk a.achievement_count && geoOk a.geo

/-- The per-field correspondence the fetch establishes between a raw
activity and the dict built from it: each sentinel default appears
exactly where the source field is absent (0 — the float-truncated
`calories_absent_default` — for calories, -1 for the other numeric
fields, the sentinel date for the start timestamp), and present
convertible values are preserved. -/
def FieldsMatch (a : RawActivity) (act : Activity) : Prop :=
  (a.distance = none → act.distance = -1) ∧
  (∀ q, a.distance = some (NumVal.ok q) → act.distance = q) ∧
  (a.start_date_local = none → act.date = sentinel_date) ∧
  (∀ t, a.start_date_local = some (DateVal.ok t) → act.date = t) ∧
  (a.elapsed_time = none → act.duration = -1) ∧
  (a.moving_time = none → act.moving_time = -1) ∧
  (a.kudos_count = none → act.kudos = -1) ∧
  (a.kilojoules = none → act.calories = calories_absent_default) ∧
  (a.total_elevation_gain = none → act.elevation = -1) ∧
  (a.average_watts = none → act.power = -1) ∧
  (a.achievement_count = none → act.trophies = -1)

/-- Concrete test input: an activity whose only present field is a
parsable start date `t`. -/
def sampleRaw (t : Int) : RawActivity :=
  ⟨none, none, none, some (DateVal.ok t), none, none, none, none, none, none, none,
    GeoResp.parsed none none⟩

/-- The normalised activity `sampleRaw t` produces: every sentinel
default (0 for calories, -1 for the other numerics), date `t`. -/
def sampleActivity (t : Int) : Activity :=
  ⟨"Strava Activity", "Paradise City", "Ride", -1, t, -1, -1, -1, 0, -1, -1, -1⟩

end HaStrava

namespace HaStrava

/-! ## Helper lemmas -/

/-- A successful `exceptMapM` run preserves length. -/
theorem exceptMapM_ok_length (f : α → Except PyError β) :
    ∀ (xs : List α) (ys : List β), exceptMapM f xs = Except.ok ys → ys.length = xs.length := by
  intro xs
  induction xs with
  | nil =>
    intro ys h
    simp only [exceptMapM] at h
    cases h
    rfl
  | cons x xs ih =>
    intro ys h
    simp only [exceptMapM, Bind.bind, Except.instMonad] at h
    cases hx : f x with
    | error e => rw [hx] at h; simp [Except.bind] at h
    | ok y =>
      rw [hx] at h
      cases hxs : exceptMapM f xs with
      | error e => rw [hxs] at h; simp [Except.bind] at h
      | ok ys0 =>
        rw [hxs] at h
        simp only [Except.bind, Except.ok.injEq] at h
        subst h
        simp [ih ys0 hxs]

/-- On every run, the reconciler persists a config record exactly when
it returns success: no partial persistence on error paths. -/
theorem renew_persist_iff_success (entry : EntryData) (view : ViewState)
    (env : ReconcileEnv) :
    ((renew_webhook_subscription entry view env).1.persisted = none ↔
      (renew_webhook_subscription entry view env).1.success = false) := by
  obtain ⟨pu, ps, subs, ds, cs, cid⟩ := env
  unfold renew_webhook_subscription
  cases pu
  · simp
  · dsimp only
    split
    · simp
    · rcases subs with _ | ⟨a, _ | ⟨b, t⟩⟩ <;> dsimp only
      · split <;> simp
      · split <;> first | simp | (split <;> simp)
      · simp

/-- Every abort path of the reconciler (no public URL, failed probe, two
or more remote subscriptions) issues no subscription calls and persists
nothing. -/
theorem renew_two_plus (entry : EntryData) (view : ViewState) (env : ReconcileEnv)
    (h : 2 ≤ env.subscriptions.length) :
    (renew_webhook_subscription entry view env).1 = ⟨0, 0, none, false⟩ := by
  obtain ⟨pu, ps, subs, ds, cs, cid⟩ := env
  simp only [ReconcileEnv.subscriptions] at h
  unfold renew_webhook_subscription
  cases pu
  · rfl
  · dsimp only
    split
    · rfl
    · rcases subs with _ | ⟨a, _ | ⟨b, t⟩⟩
      · simp at h
      · simp at h
      · rfl

/-! ## Claims about the reconciler -/

/-- C1: the claim says that with exactly one remote subscription whose
callback URL differs and a 204 delete, the run issues one delete, then
one create, and persists the created id.  The code issues the delete but
then skips creation entirely (the `elif len == 0` branch of the same
`if` chain is never re-evaluated after `existing_webhook_subscriptions`
is reassigned) and persists the id of the just-deleted subscription,
returning success — contradicting the function's own docstring
("Re-creates a subscription ... if the public URL has changed").  This
theorem evaluates the model at the failing input: one delete, zero
creates, persisted webhook id 42 (the deleted subscription's id, not the
create response's id 99). -/
theorem C1_delete_without_recreate :
    (renew_webhook_subscription ⟨"ci", "cs", none, none⟩ (StravaWebhookView.init "new.example")
        ⟨some "https://new.example", 200,
          [⟨42, "https://old.example/api/strava/webhook"⟩], 204, 201, 99⟩).1 =
      ⟨1, 0, some ⟨"ci", "cs", some "https://new.example/api/strava/webhook", some 42⟩, true⟩ := by
  decide

/-- C7: with two or more remote subscriptions the reconciler issues no
create and no delete, persists nothing and reports failure; and in
general a config record is persisted exactly on full success, never on
an error path. -/
theorem C7_invariant_violation (entry : EntryData) (view : ViewState)
    (env : ReconcileEnv) (h : 2 ≤ env.subscriptions.length) :
    (renew_webhook_subscription entry view env).1.deletes = 0 ∧
    (renew_webhook_subscription entry view env).1.creates = 0 ∧
    (renew_webhook_subscription entry view env).1.persisted = none ∧
    (renew_webhook_subscription entry view env).1.success = false ∧
    ∀ (e2 : EntryData) (v2 : ViewState) (env2 : ReconcileEnv),
      ((renew_webhook_subscription e2 v2 env2).1.persisted = none ↔
        (renew_webhook_subscription e2 v2 env2).1.success = false) := by
  rw [renew_two_plus entry view env h]
  exact ⟨rfl, rfl, rfl, rfl, fun e2 v2 env2 => renew_persist_iff_success e2 v2 env2⟩

/-- Witness for C7 at a concrete two-subscription environment. -/
theorem C7_invariant_violation_witness :
    2 ≤ (ReconcileEnv.mk (some "https://h.example") 200
        [⟨1, "https://h.example/api/strava/webhook"⟩, ⟨2, "https://other/api/strava/webhook"⟩]
        204 201 9).subscriptions.length ∧
    ((renew_webhook_subscription ⟨"ci", "cs", none, none⟩ ⟨none, "h.example"⟩
        ⟨some "https://h.example", 200,
          [⟨1, "https://h.example/api/strava/webhook"⟩, ⟨2, "https://other/api/strava/webhook"⟩],
          204, 201, 9⟩).1.deletes = 0 ∧
      (renew_webhook_subscription ⟨"ci", "cs", none, none⟩ ⟨none, "h.example"⟩
        ⟨some "https://h.example", 200,
          [⟨1, "https://h.example/api/strava/webhook"⟩, ⟨2, "https://other/api/strava/webhook"⟩],
          204, 201, 9⟩).1.creates = 0 ∧
      (renew_webhook_subscription ⟨"ci", "cs", none, none⟩ ⟨none, "h.example"⟩
        ⟨some "https://h.example", 200,
          [⟨1, "https://h.example/api/strava/webhook"⟩, ⟨2, "https://other/api/strava/webhook"⟩],
          204, 201, 9⟩).1.persisted = none ∧
      (renew_webhook_subscription ⟨"ci", "cs", none, none⟩ ⟨none, "h.example"⟩
        ⟨some "https://h.example", 200,
          [⟨1, "https://h.example/api/strava/webhook"⟩, ⟨2, "https://other/api/strava/webhook"⟩],
          204, 201, 9⟩).1.success = false ∧
      ∀ (e2 : EntryData) (v2 : ViewState) (env2 : ReconcileEnv),
        ((renew_webhook_subscription e2 v2 env2).1.persisted = none ↔
          (renew_webhook_subscription e2 v2 env2).1.success = false)) :=
  ⟨by decide,
    C7_invariant_violation ⟨"ci", "cs", none, none⟩ ⟨none, "h.example"⟩ _ (by decide)⟩

/-- C8: with exactly one remote subscription whose callback URL already
equals the current one, the reconciler issues zero create and zero
delete calls and succeeds, and running it again from the config it
persisted (with unchanged external state) produces the identical
outcome: a fixed point after the first successful run. -/
theorem C8_idempotent (entry : EntryData) (view : ViewState) (env : ReconcileEnv)
    (u : String) (s : Subscription)
    (hu : env.public_url = some u)
    (hp : env.callback_probe_status = 200)
    (hs : env.subscriptions = [s])
    (hcb : s.callback_url = u ++ "/api/strava/webhook") :
    (renew_webhook_subscription entry view env).1.creates = 0 ∧
    (renew_webhook_subscription entry view env).1.deletes = 0 ∧
    (renew_webhook_subscription entry view env).1.success = true ∧
    ∃ cfg, (renew_webhook_subscription entry view env).1.persisted = some cfg ∧
      (renew_webhook_subscription cfg view env).1 = (renew_webhook_subscription entry view env).1 := by
  unfold renew_webhook_subscription
  rw [hu, hs]
  dsimp only
  rw [hp, hcb]
  simp

/-- Witness for C8 at a concrete matching subscription. -/
theorem C8_idempotent_witness :
    (ReconcileEnv.mk (some "https://h.example") 200
        [⟨7, "https://h.example/api/strava/webhook"⟩] 204 201 9).public_url =
      some "https://h.example" ∧
    (ReconcileEnv.mk (some "https://h.example") 200
        [⟨7, "https://h.example/api/strava/webhook"⟩] 204 201 9).callback_probe_status = 200 ∧
    (ReconcileEnv.mk (some "https://h.example") 200
        [⟨7, "https://h.example/api/strava/webhook"⟩] 204 201 9).subscriptions =
      [⟨7, "https://h.example/api/strava/webhook"⟩] ∧
    (Subscription.mk 7 "https://h.example/api/strava/webhook").callback_url =
      "https://h.example" ++ "/api/strava/webhook" ∧
    ((renew_webhook_subscription ⟨"ci", "cs", none, none⟩ ⟨none, "h.example"⟩
        ⟨some "https://h.example", 200, [⟨7, "https://h.example/api/strava/webhook"⟩],
          204, 201, 9⟩).1.creates = 0 ∧
      (renew_webhook_subscription ⟨"ci", "cs", none, none⟩ ⟨none, "h.example"⟩
        ⟨some "https://h.example", 200, [⟨7, "https://h.example/api/strava/webhook"⟩],
          204, 201, 9⟩).1.deletes = 0 ∧
      (renew_webhook_subscription ⟨"ci", "cs", none, none⟩ ⟨none, "h.example"⟩
        ⟨some "https://h.example", 200, [⟨7, "https://h.example/api/strava/webhook"⟩],
          204, 201, 9⟩).1.success = true ∧
      ∃ cfg, (renew_webhook_subscription ⟨"ci", "cs", none, none⟩ ⟨none, "h.example"⟩
          ⟨some "https://h.example", 200, [⟨7, "https://h.example/api/strava/webhook"⟩],
            204, 201, 9⟩).1.persisted = some cfg ∧
        (renew_webhook_subscription cfg ⟨none, "h.example"⟩
            ⟨some "https://h.example", 200, [⟨7, "https://h.example/api/strava/webhook"⟩],
              204, 201, 9⟩).1 =
          (renew_webhook_subscription ⟨"ci", "cs", none, none⟩ ⟨none, "h.example"⟩
            ⟨some "https://h.example", 200, [⟨7, "https://h.example/api/strava/webhook"⟩],
              204, 201, 9⟩).1) :=
  ⟨rfl, rfl, rfl, rfl,
    C8_idempotent ⟨"ci", "cs", none, none⟩ ⟨none, "h.example"⟩ _
      "https://h.example" ⟨7, "https://h.example/api/strava/webhook"⟩ rfl rfl rfl rfl⟩

/-- C10: the reconciler never writes the webhook view: the view
component of its result is the view it was given; the view is
initialised with `webhook_id = None`; and the POST handler's id
comparison against a `None` id is false for every extracted id. -/
theorem C10_view_frame (h : String) (entry : EntryData) (env : ReconcileEnv)
    (view : ViewState) :
    (renew_webhook_subscription entry view env).2 = view ∧
    (StravaWebhookView.init h).webhook_id = none ∧
    ∀ n : Int, idMatch (StravaWebhookView.init h) n = false :=
  ⟨rfl, rfl, fun _ => rfl⟩

/-! ## Claims about the POST handler -/

/-- C2: for every POST request whose `subscription_id` extraction
completes (yielding `n`), exactly one background fetch task is created
if and only if the extracted id equals the view's known id or the Host
header is present and contained in the view's public host; with neither,
no fetch task is created. -/
theorem C2_dispatch_iff (view : ViewState) (req : PostRequest) (n : Int)
    (h : extract_webhook_id req.body = Except.ok n) :
    (∃ st, post view req = Except.ok (1, st)) ↔
      (idMatch view n = true ∨
        ∃ rh, req.host = some rh ∧ pyIn rh view.host = true) := by
  unfold post
  simp only [h, Bind.bind, Except.instMonad, Except.bind]
  cases him : idMatch view n with
  | true => simp
  | false =>
    simp only [Bool.false_eq_true, if_false]
    cases hh : req.host with
    | none => simp [hostMatch]
    | some rh =>
      simp only [hostMatch, Except.bind]
      cases hin : pyIn rh view.host <;> simp [hin]

/-- Witness for C2 at a concrete request with a non-matching id and a
matching host. -/
theorem C2_dispatch_iff_witness :
    extract_webhook_id (BodyVal.obj (some (FieldVal.intLike 7))) = Except.ok 7 ∧
    ((∃ st, post ⟨some 5, "my.example.com"⟩
        ⟨some "example.com", BodyVal.obj (some (FieldVal.intLike 7))⟩ = Except.ok (1, st)) ↔
      (idMatch ⟨some 5, "my.example.com"⟩ 7 = true ∨
        ∃ rh, (⟨some "example.com", BodyVal.obj (some (FieldVal.intLike 7))⟩ :
            PostRequest).host = some rh ∧ pyIn rh "my.example.com" = true)) :=
  ⟨rfl, C2_dispatch_iff ⟨some 5, "my.example.com"⟩
    ⟨some "example.com", BodyVal.obj (some (FieldVal.intLike 7))⟩ 7 rfl⟩

/-- C4 counterexample: the claim says requests with a malformed
`subscription_id` field default to -1 and still get a 200 response.  On
a body whose `subscription_id` is present but not `int`-convertible the
handler instead raises `ValueError` (only `JSONDecodeError` is caught),
so no 200 response is produced. -/
theorem C4_counterexample :
    post ⟨none, "example.com"⟩ ⟨some "example.com", BodyVal.obj (some FieldVal.notIntLike)⟩ =
      Except.error PyError.valueError := rfl

/-- C4 (amended): for every POST request carrying a Host header whose
`subscription_id` extraction completes — the body is unparsable JSON
(default -1), or the field is absent (default -1), or it is
`int`-convertible — the handler raises no exception and responds 200,
in every combination of host match and id match. -/
theorem C4_always_200 (view : ViewState) (req : PostRequest) (rh : String) (n : Int)
    (hhost : req.host = some rh) (hex : extract_webhook_id req.body = Except.ok n) :
    ∃ k, post view req = Except.ok (k, 200) := by
  unfold post
  simp only [hex, Bind.bind, Except.instMonad, Except.bind]
  cases him : idMatch view n with
  | true => exact ⟨1, by simp [HTTP_OK]⟩
  | false =>
    simp only [Bool.false_eq_true, if_false, hhost, hostMatch, Except.bind]
    cases hin : pyIn rh view.host
    · exact ⟨0, by simp [hin, HTTP_OK]⟩
    · exact ⟨1, by simp [hin, HTTP_OK]⟩

/-- Witness for C4 (amended) at a concrete unparsable-body request. -/
theorem C4_always_200_witness :
    (⟨some "h.example", BodyVal.unparsable⟩ : PostRequest).host = some "h.example" ∧
    extract_webhook_id BodyVal.unparsable = Except.ok (-1) ∧
    ∃ k, post ⟨none, "my.example"⟩ ⟨some "h.example", BodyVal.unparsable⟩ =
      Except.ok (k, 200) :=
  ⟨rfl, rfl, C4_always_200 ⟨none, "my.example"⟩ ⟨some "h.example", BodyVal.unparsable⟩
    "h.example" (-1) rfl rfl⟩

/-! ## Helper lemmas for the fetch pipeline -/

/-- A convertible-or-absent float field succeeds, with `-1` exactly as
the absence default. -/
theorem pyFloatField_ok (v : Option NumVal) (h : numOk v = true) :
    ∃ q, pyFloatField v = Except.ok q ∧ (v = none → q = -1) ∧
      ∀ x, v = some (NumVal.ok x) → q = x := by
  cases v with
  | none => exact ⟨-1, rfl, fun _ => rfl, by simp⟩
  | some nv =>
    cases nv with
    | ok q => exact ⟨q, rfl, by simp, by simp⟩
    | bad => simp [numOk] at h

/-- A convertible-or-absent int field succeeds, with `-1` exactly as the
absence default. -/
theorem pyIntField_ok (v : Option NumVal) (h : numOk v = true) :
    ∃ n, pyIntField v = Except.ok n ∧ (v = none → n = -1) := by
  cases v with
  | none => exact ⟨-1, rfl, fun _ => rfl⟩
  | some nv =>
    cases nv with
    | ok q => exact ⟨pyTrunc q, rfl, by simp⟩
    | bad => simp [numOk] at h

/-- A parsable-or-absent date field succeeds, with the sentinel date
exactly as the absence default. -/
theorem strptimeField_ok (v : Option DateVal) (h : dateOk v = true) :
    ∃ t, strptimeField v = Except.ok t ∧ (v = none → t = sentinel_date) ∧
      ∀ x, v = some (DateVal.ok x) → t = x := by
  cases v with
  | none => exact ⟨sentinel_date, rfl, fun _ => rfl, by simp⟩
  | some dv =>
    cases dv with
    | ok t => exact ⟨t, rfl, by simp, by simp⟩
    | bad => simp [dateOk] at h

/-- A convertible-or-absent `kilojoules` field succeeds, with the
float-truncated `calories_absent_default` exactly as the absence
default. -/
theorem caloriesField_ok (v : Option NumVal) (h : numOk v = true) :
    ∃ n, caloriesField v = Except.ok n ∧ (v = none → n = calories_absent_default) := by
  cases v with
  | none => exact ⟨calories_absent_default, rfl, fun _ => rfl⟩
  | some nv =>
    cases nv with
    | ok q => exact ⟨pyTrunc (q * FACTOR_KILOJOULES_TO_KILOCALORIES), rfl, by simp⟩
    | bad => simp [numOk] at h

/-- A parsable geocode response always yields a city string. -/
theorem cityOf_ok (g : GeoResp) (h : geoOk g = true) :
    ∃ c, cityOf g = Except.ok c := by
  cases g with
  | unparsable => simp [geoOk] at h
  | parsed city nm => exact ⟨_, rfl⟩

/-- Building the activity dict from a well-formed raw activity raises
nothing, keeps the supplied city, and satisfies the per-field
correspondence `FieldsMatch`. -/
theorem mkActivity_ok (a : RawActivity) (c : String) (hw : wellFormed a = true) :
    ∃ act, mkActivity a c = Except.ok act ∧ act.city = c ∧ FieldsMatch a act := by
  rw [wellFormed] at hw
  simp only [Bool.and_eq_true] at hw
  obtain ⟨⟨⟨⟨⟨⟨⟨⟨⟨hdist, hdate⟩, hel⟩, hmov⟩, hkud⟩, hkj⟩, hele⟩, hwat⟩, hach⟩, hgeo⟩ := hw
  obtain ⟨qd, hqd, hd1, hd2⟩ := pyFloatField_ok a.distance hdist
  obtain ⟨td, htd, ht1, ht2⟩ := strptimeField_ok a.start_date_local hdate
  obtain ⟨qe, hqe, he1, _⟩ := pyFloatField_ok a.elapsed_time hel
  obtain ⟨qm, hqm, hm1, _⟩ := pyFloatField_ok a.moving_time hmov
  obtain ⟨nk, hnk, hk1⟩ := pyIntField_ok a.kudos_count hkud
  obtain ⟨nc, hnc, hc1⟩ := caloriesField_ok a.kilojoules hkj
  obtain ⟨ne2, hne, hee1⟩ := pyIntField_ok a.total_elevation_gain hele
  obtain ⟨qw, hqw, hw1, _⟩ := pyFloatField_ok a.average_watts hwat
  obtain ⟨nt, hnt, htr1⟩ := pyIntField_ok a.achievement_count hach
  refine ⟨⟨a.name.getD "Strava Activity", c, a.type.getD "Ride",
    qd, td, qe, qm, nk, nc, ne2, qw, nt⟩, ?_, rfl, ?_⟩
  · simp only [mkActivity, hqd, htd, hqe, hqm, hnk, hnc, hne, hqw, hnt,
      Bind.bind, Except.instMonad, Except.bind]
  · exact ⟨fun h => hd1 h, fun q h => hd2 q h, fun h => ht1 h, fun t h => ht2 t h,
      fun h => he1 h, fun h => hm1 h, fun h => hk1 h, fun h => hc1 h,
      fun h => hee1 h, fun h => hw1 h, fun h => htr1 h⟩

/-- One run of the geocode loop and the dict comprehension over a list
of well-formed activities: both succeed, the outputs are index-aligned
with the input, and each output activity satisfies `FieldsMatch` with —
and carries the `cityOf` value of — its own input activity. -/
theorem fetch_pipeline_ok (raw : List RawActivity)
    (hw : ∀ a ∈ raw, wellFormed a = true) :
    ∃ cities processed,
      exceptMapM (fun a => cityOf a.geo) raw = Except.ok cities ∧
      exceptMapM (fun p => mkActivity p.1 p.2) (raw.zip cities) = Except.ok processed ∧
      processed.length = raw.length ∧
      ∀ i (hi : i < raw.length) (hp : i < processed.length),
        FieldsMatch (raw.get ⟨i, hi⟩) (processed.get ⟨i, hp⟩) ∧
        cityOf (raw.get ⟨i, hi⟩).geo = Except.ok ((processed.get ⟨i, hp⟩).city) := by
  induction raw with
  | nil =>
    exact ⟨[], [], rfl, rfl, rfl, fun i hi _ => absurd hi (Nat.not_lt_zero i)⟩
  | cons a t ih =>
    have hwa : wellFormed a = true := hw a (List.mem_cons_self a t)
    obtain ⟨cities, processed, hc, hm, hlen, hidx⟩ :=
      ih (fun x hx => hw x (List.mem_cons_of_mem a hx))
    have hga : geoOk a.geo = true := by
      rw [wellFormed] at hwa
      simp only [Bool.and_eq_true] at hwa
      exact hwa.2
    obtain ⟨c, hca⟩ := cityOf_ok a.geo hga
    obtain ⟨act, hma, hcity, hF⟩ := mkActivity_ok a c hwa
    refine ⟨c :: cities, act :: processed, ?_, ?_, ?_, ?_⟩
    · simp only [exceptMapM, hca, hc, Bind.bind, Except.instMonad, Except.bind]
    · have hm2 : exceptMapM (fun p => mkActivity p.1 p.2)
          (List.zipWith Prod.mk t cities) = Except.ok processed := hm
      simp only [List.zip_cons_cons, exceptMapM, hma, hm2, Bind.bind,
        Except.instMonad, Except.bind]
    · simp [hlen]
    · intro i hi hp
      cases i with
      | zero =>
        refine ⟨hF, ?_⟩
        show cityOf a.geo = Except.ok act.city
        rw [hcity]
        exact hca
      | succ n =>
        exact hidx n (Nat.lt_of_succ_lt_succ hi) (Nat.lt_of_succ_lt_succ hp)

/-- A 200 fetch over well-formed activities succeeds, publishing the
descending sort of the in-order processed list, each element of which
corresponds index-wise to its raw activity. -/
theorem fetch_ok_processed (raw : List RawActivity)
    (hw : ∀ a ∈ raw, wellFormed a = true) :
    ∃ processed, fetch_strava_data 200 (some raw) =
        Except.ok [List.insertionSort dateDesc processed] ∧
      processed.length = raw.length ∧
      ∀ i (hi : i < raw.length) (hp : i < processed.length),
        FieldsMatch (raw.get ⟨i, hi⟩) (processed.get ⟨i, hp⟩) ∧
        cityOf (raw.get ⟨i, hi⟩).geo = Except.ok ((processed.get ⟨i, hp⟩).city) := by
  obtain ⟨cities, processed, hc, hm, hlen, hidx⟩ := fetch_pipeline_ok raw hw
  refine ⟨processed, ?_, hlen, hidx⟩
  unfold fetch_strava_data
  rw [if_pos rfl]
  simp only [Bind.bind, Except.instMonad, Except.bind, hc, hm]

/-! ## Claims about the fetch pipeline -/

/-- C6: the publish callback fires exactly once when the activities
response has status 200 and processing succeeds, and zero times — with
no exception — when the status is not 200. -/
theorem C6_publish_count (status : Nat) (body : Option (List RawActivity)) :
    (status ≠ 200 → fetch_strava_data status body = Except.ok []) ∧
    ∀ pubs, fetch_strava_data status body = Except.ok pubs → status = 200 →
      pubs.length = 1 := by
  constructor
  · intro h
    unfold fetch_strava_data
    rw [if_neg h]
  · intro pubs h h200
    subst h200
    unfold fetch_strava_data at h
    rw [if_pos rfl] at h
    cases body with
    | none => simp [Bind.bind, Except.instMonad, Except.bind] at h
    | some l =>
      simp only [Bind.bind, Except.instMonad, Except.bind] at h
      cases h1 : exceptMapM (fun a => cityOf a.geo) l with
      | error e => simp only [h1] at h; cases h
      | ok cities =>
        simp only [h1] at h
        cases h2 : exceptMapM (fun p => mkActivity p.1 p.2) (l.zip cities) with
        | error e => simp only [h2] at h; cases h
        | ok processed =>
          simp only [h2, Except.ok.injEq] at h
          subst h
          rfl

/-- Witness for C6 at a concrete non-200 response. -/
theorem C6_publish_count_witness : fetch_strava_data 404 none = Except.ok [] :=
  (C6_publish_count 404 none).1 (by decide)

/-- C5: whenever a 200 fetch publishes a list and the activities
response honours the requested page size, the published list is sorted
by start timestamp descending and its length is at most
`MAX_NB_ACTIVITIES` (the code requests `per_page = MAX_NB_ACTIVITIES`
and afterwards preserves the response length). -/
theorem C5_sorted_bounded (raw : List RawActivity) (l : List Activity)
    (hlen : raw.length ≤ MAX_NB_ACTIVITIES)
    (hok : fetch_strava_data 200 (some raw) = Except.ok [l]) :
    List.Sorted dateDesc l ∧ l.length ≤ MAX_NB_ACTIVITIES := by
  unfold fetch_strava_data at hok
  rw [if_pos rfl] at hok
  simp only [Bind.bind, Except.instMonad, Except.bind] at hok
  cases h1 : exceptMapM (fun a => cityOf a.geo) raw with
  | error e => simp only [h1] at hok; cases hok
  | ok cities =>
    simp only [h1] at hok
    cases h2 : exceptMapM (fun p => mkActivity p.1 p.2) (raw.zip cities) with
    | error e => simp only [h2] at hok; cases hok
    | ok processed =>
      simp only [h2, Except.ok.injEq, List.cons.injEq, and_true] at hok
      subst hok
      constructor
      · exact List.sorted_insertionSort dateDesc processed
      · rw [List.length_insertionSort]
        have hc : cities.length = raw.length := exceptMapM_ok_length _ raw cities h1
        have hz : (raw.zip cities).length = raw.length := by
          rw [List.length_zip, hc, min_self]
        rw [exceptMapM_ok_length _ (raw.zip cities) processed h2, hz]
        exact hlen

/-- Witness for C5 at a concrete two-activity response with distinct
dates, published in descending order. -/
theorem C5_sorted_bounded_witness :
    [sampleRaw 100, sampleRaw 200].length ≤ MAX_NB_ACTIVITIES ∧
    fetch_strava_data 200 (some [sampleRaw 100, sampleRaw 200]) =
      Except.ok [[sampleActivity 200, sampleActivity 100]] ∧
    (List.Sorted dateDesc [sampleActivity 200, sampleActivity 100] ∧
      [sampleActivity 200, sampleActivity 100].length ≤ MAX_NB_ACTIVITIES) :=
  ⟨by decide,
    by simp [fetch_strava_data, exceptMapM, cityOf, mkActivity, pyFloatField, pyIntField,
      strptimeField, caloriesField, calories_absent_default, Bind.bind, Except.instMonad, Except.bind,
      List.insertionSort, List.orderedInsert, dateDesc, sampleRaw, sampleActivity],
    C5_sorted_bounded [sampleRaw 100, sampleRaw 200] [sampleActivity 200, sampleActivity 100]
      (by decide)
      (by simp [fetch_strava_data, exceptMapM, cityOf, mkActivity, pyFloatField, pyIntField,
        strptimeField, caloriesField, calories_absent_default, Bind.bind, Except.instMonad, Except.bind,
        List.insertionSort, List.orderedInsert, dateDesc, sampleRaw, sampleActivity])⟩

/-- C3 counterexample: the claim says a malformed individual field
degrades only that field to its sentinel and never aborts the fetch.  On
a 200 response whose single activity has a present but unparsable
`start_date_local`, the fetch instead raises `ValueError` out of
`strptime` and publishes nothing. -/
theorem C3_counterexample :
    fetch_strava_data 200 (some
        [⟨none, none, none, some DateVal.bad, none, none, none, none, none, none, none,
          GeoResp.parsed none none⟩]) =
      Except.error PyError.valueError := rfl

/-- C3 (amended): for every 200 fetch whose activities all have
convertible-or-absent fields, the fetch never aborts, and an absent
individual field of any activity degrades only that field to its
sentinel default — -1 for the numeric fields, the fixed sentinel date
for an absent start timestamp, and 0 (the float-truncated
`calories_absent_default`, not -1) for calories — while present
convertible values are preserved.  A present malformed field value
raises and aborts the whole fetch (see the counterexample), as does a
JSON parse failure of the top-level response. -/
theorem C3_absent_fields_degrade (raw : List RawActivity)
    (hw : ∀ a ∈ raw, wellFormed a = true) :
    (∃ processed, fetch_strava_data 200 (some raw) =
        Except.ok [List.insertionSort dateDesc processed] ∧
      processed.length = raw.length ∧
      ∀ i (hi : i < raw.length) (hp : i < processed.length),
        FieldsMatch (raw.get ⟨i, hi⟩) (processed.get ⟨i, hp⟩)) ∧
    fetch_strava_data 200 none = Except.error PyError.jsonDecodeError := by
  refine ⟨?_, rfl⟩
  obtain ⟨processed, hf, hlen, hidx⟩ := fetch_ok_processed raw hw
  exact ⟨processed, hf, hlen, fun i hi hp => (hidx i hi hp).1⟩

/-- Witness for C3 (amended) at a concrete two-activity response. -/
theorem C3_absent_fields_degrade_witness :
    (∀ a ∈ [sampleRaw 100, sampleRaw 200], wellFormed a = true) ∧
    ((∃ processed, fetch_strava_data 200 (some [sampleRaw 100, sampleRaw 200]) =
        Except.ok [List.insertionSort dateDesc processed] ∧
      processed.length = [sampleRaw 100, sampleRaw 200].length ∧
      ∀ i (hi : i < [sampleRaw 100, sampleRaw 200].length) (hp : i < processed.length),
        FieldsMatch ([sampleRaw 100, sampleRaw 200].get ⟨i, hi⟩)
          (processed.get ⟨i, hp⟩)) ∧
      fetch_strava_data 200 none = Except.error PyError.jsonDecodeError) :=
  ⟨by decide, C3_absent_fields_degrade [sampleRaw 100, sampleRaw 200] (by decide)⟩

/-- C9 counterexample: the claim says a geocoding failure, including an
unparsable geocode response, falls back rather than aborting.  On a 200
response whose single activity has an unparsable geocode response, the
fetch instead raises `JSONDecodeError` out of `json.loads` and publishes
nothing. -/
theorem C9_counterexample :
    fetch_strava_data 200 (some
        [⟨none, none, none, none, none, none, none, none, none, none, none,
          GeoResp.unparsable⟩]) =
      Except.error PyError.jsonDecodeError := rfl

/-- C9 (amended): for every activity processed in a successful
200 fetch over well-formed activities, the city assigned to it is its
own geocode response's `city` field when present and truthy
(non-empty), otherwise the `name` field when present, otherwise
`"Paradise City"`; an unparsable geocode response instead aborts the
fetch (see the counterexample). -/
theorem C9_city_fallback (raw : List RawActivity)
    (hw : ∀ a ∈ raw, wellFormed a = true) :
    (∀ c nm : Option String, cityOf (GeoResp.parsed c nm) = Except.ok
      (c.elim (nm.getD "Paradise City")
        (fun s => if s ≠ "" then s else nm.getD "Paradise City"))) ∧
    ∃ processed, fetch_strava_data 200 (some raw) =
        Except.ok [List.insertionSort dateDesc processed] ∧
      processed.length = raw.length ∧
      ∀ i (hi : i < raw.length) (hp : i < processed.length) (c nm : Option String),
        (raw.get ⟨i, hi⟩).geo = GeoResp.parsed c nm →
          (processed.get ⟨i, hp⟩).city =
            c.elim (nm.getD "Paradise City")
              (fun s => if s ≠ "" then s else nm.getD "Paradise City") := by
  have hrule : ∀ c nm : Option String, cityOf (GeoResp.parsed c nm) = Except.ok
      (c.elim (nm.getD "Paradise City")
        (fun s => if s ≠ "" then s else nm.getD "Paradise City")) := by
    intro c nm
    cases c <;> rfl
  refine ⟨hrule, ?_⟩
  obtain ⟨processed, hf, hlen, hidx⟩ := fetch_ok_processed raw hw
  refine ⟨processed, hf, hlen, ?_⟩
  intro i hi hp c nm hgeo
  have hcity := (hidx i hi hp).2
  rw [hgeo, hrule c nm] at hcity
  simp only [Except.ok.injEq] at hcity
  exact hcity.symm

/-- Witness for C9 (amended) at a falsy `city` and a present `name`:
the assigned city is `"Springfield"`. -/
theorem C9_city_fallback_witness :
    (∀ a ∈ [(⟨none, none, none, none, none, none, none, none, none, none, none,
        GeoResp.parsed (some "") (some "Springfield")⟩ : RawActivity)],
      wellFormed a = true) ∧
    ((∀ c nm : Option String, cityOf (GeoResp.parsed c nm) = Except.ok
        (c.elim (nm.getD "Paradise City")
          (fun s => if s ≠ "" then s else nm.getD "Paradise City"))) ∧
      ∃ processed, fetch_strava_data 200 (some
          [(⟨none, none, none, none, none, none, none, none, none, none, none,
            GeoResp.parsed (some "") (some "Springfield")⟩ : RawActivity)]) =
          Except.ok [List.insertionSort dateDesc processed] ∧
        processed.length = [(⟨none, none, none, none, none, none, none, none, none,
          none, none, GeoResp.parsed (some "") (some "Springfield")⟩ : RawActivity)].length ∧
        ∀ i (hi : i < [(⟨none, none, none, none, none, none, none, none, none, none,
            none, GeoResp.parsed (some "") (some "Springfield")⟩ : RawActivity)].length)
          (hp : i < processed.length) (c nm : Option String),
          ([(⟨none, none, none, none, none, none, none, none, none, none, none,
              GeoResp.parsed (some "") (some "Springfield")⟩ : RawActivity)].get
            ⟨i, hi⟩).geo = GeoResp.parsed c nm →
            (processed.get ⟨i, hp⟩).city =
              c.elim (nm.getD "Paradise City")
                (fun s => if s ≠ "" then s else nm.getD "Paradise City")) :=
  ⟨by decide,
    C9_city_fallback [(⟨none, none, none, none, none, none, none, none, none, none,
      none, GeoResp.parsed (some "") (some "Springfield")⟩ : RawActivity)] (by decide)⟩

end HaStrava
